import Mathlib

/-!
Shallow embedding of `src/lambda_function.py`, the single AWS Lambda handler
of the aws-bedrock-summarizer repository, together with theorems settling the
specification claims about it.

Modelling conventions:

* Python/JSON values are the inductive `PyVal`.  Dictionaries are association
  lists with string keys (the keys produced by `json.loads` are strings, and
  Python dictionaries hold each key once).  Python floats only occur as opaque
  pass-through values here (the handler performs no arithmetic on them), so
  they are carried as exact rationals.
* The standard-library function `json.loads` and the Bedrock client call
  `bedrock_runtime.invoke_model` are external to the repository; the handler
  is parameterised over them.  `jsonLoads` returns either the decoded value or
  the `JSONDecodeError` message; `invoke_model` returns either the bytes of
  the response body stream, a `botocore` `ClientError` with its code and
  message, or any other raised exception with its text.
* Exceptions raised inside the `try` block are modelled with `Except PyErr`;
  the three `except` clauses of the source become the total dispatch in
  `lambda_handler`, so the handler is a total function into `LambdaResult`.
* The result's `body` field is kept as the structured object handed to
  `json.dumps` (serialisation is a faithful transport detail); `statusCode`
  and `headers` are carried verbatim.
* The unused `context` argument of the Python handler is omitted.
* The texts of interpreter-raised messages (`AttributeError` from calling
  `.get` on a non-dictionary, `TypeError` from slicing a non-sliceable
  `prompt` in the logging f-string) are modelled as fixed renderings; no
  claim depends on their exact wording.
-/

/-- A Python value as it can appear in a Lambda event or a JSON document:
string, integer, float, boolean, `None`, list, or dictionary with string
keys. -/
inductive PyVal where
  | str : String → PyVal
  | int : Int → PyVal
  | float : Rat → PyVal
  | bool : Bool → PyVal
  | none : PyVal
  | list : List PyVal → PyVal
  | obj : List (String × PyVal) → PyVal

/-- Outcome of the external `bedrock_runtime.invoke_model(...)` call followed
by `response['body'].read()`: the response body on success, a structured
`ClientError` carrying a code and a message, or any other raised exception
carrying its text. -/
inductive InvokeResult where
  | ok : String → InvokeResult
  | clientError : String → String → InvokeResult
  | raised : String → InvokeResult

/-- An exception escaping the `try` block, classified exactly as the three
`except` clauses of the source classify it: `botocore` `ClientError` (code,
message), `json.JSONDecodeError` (message), or anything else (message). -/
inductive PyErr where
  | clientError : String → String → PyErr
  | jsonDecodeError : String → PyErr
  | other : String → PyErr

/-- The structured value returned by the handler: status code, response
headers, and the envelope object that the source passes to `json.dumps`. -/
structure LambdaResult where
  statusCode : Nat
  headers : List (String × String)
  body : PyVal

/-- Python type name of a `PyVal`, used to render interpreter error texts. -/
def pyTypeName : PyVal → String
  | .str _ => "str"
  | .int _ => "int"
  | .float _ => "float"
  | .bool _ => "bool"
  | .none => "NoneType"
  | .list _ => "list"
  | .obj _ => "dict"

/-- Rendered text of the `AttributeError` raised by `event.get(...)` when
`event` is not a dictionary. -/
def attrErrMsg (v : PyVal) : String :=
  pyTypeName v ++ " object has no attribute get"

/-- Rendered text of the `TypeError` raised by the slice `prompt[:100]` in the
logging f-string when `prompt` is neither a string nor a list. -/
def sliceErrMsg (v : PyVal) : String :=
  match v with
  | .obj _ => "unhashable type: slice"
  | v => pyTypeName v ++ " object is not subscriptable"

/-- `d.get(key, default)` on a Python dictionary: the stored value when the
key is present, the default otherwise. -/
def dictGet (kvs : List (String × PyVal)) (key : String) (dflt : PyVal) : PyVal :=
  (List.lookup key kvs).getD dflt

/-- `event.get('prompt', 'Hello, how are you?')` (line 33 of the source). -/
def effPrompt (kvs : List (String × PyVal)) : PyVal :=
  dictGet kvs "prompt" (.str "Hello, how are you?")

/-- `event.get('max_tokens', 512)` (line 34 of the source). -/
def effMaxTokens (kvs : List (String × PyVal)) : PyVal :=
  dictGet kvs "max_tokens" (.int 512)

/-- `event.get('temperature', 0.7)` (line 35 of the source). -/
def effTemperature (kvs : List (String × PyVal)) : PyVal :=
  dictGet kvs "temperature" (.float 0.7)

/-- `event.get('top_p', 0.9)` (line 36 of the source). -/
def effTopP (kvs : List (String × PyVal)) : PyVal :=
  dictGet kvs "top_p" (.float 0.9)

/-- The slice `prompt[:100]` evaluated inside the logging f-string
(line 38 of the source): defined on strings and lists, a `TypeError` on
everything else. -/
def pySlice100 (v : PyVal) : Except PyErr PyVal :=
  match v with
  | .str s => .ok (.str (s.take 100))
  | .list l => .ok (.list (l.take 100))
  | v => .error (.other (sliceErrMsg v))

/-- The provider request body of lines 41-46 of the source: the fixed
renaming prompt→prompt, max_tokens→max_gen_len, temperature→temperature,
top_p→top_p, values passed through unchanged. -/
def requestBody (prompt max_tokens temperature top_p : PyVal) : PyVal :=
  .obj [("prompt", prompt), ("max_gen_len", max_tokens),
        ("temperature", temperature), ("top_p", top_p)]

/-- `os.environ.get('MODEL_ID', 'meta.llama3-8b-instruct-v1:0')` (line 49 of
the source): the externally supplied model identifier, with the fixed
fallback. -/
def resolveModelId (envModelId : Option String) : String :=
  envModelId.getD "meta.llama3-8b-instruct-v1:0"

/-- Lines 29-30 of the source: a string event is decoded with `json.loads`
(a failure is a `JSONDecodeError`); any other event is used as it is. -/
def parseEvent (jsonLoads : String → Except String PyVal) (event : PyVal) :
    Except PyErr PyVal :=
  match event with
  | .str s =>
    match jsonLoads s with
    | .ok v => .ok v
    | .error msg => .error (.jsonDecodeError msg)
  | v => .ok v

/-- The headers attached to the success result (lines 70-75 of the source). -/
def successHeaders : List (String × String) :=
  [("Content-Type", "application/json"),
   ("Access-Control-Allow-Origin", "*"),
   ("Access-Control-Allow-Headers", "Content-Type"),
   ("Access-Control-Allow-Methods", "OPTIONS,POST,GET")]

/-- The headers attached by each of the three error branches (lines 97-100,
113-116 and 129-132 of the source). -/
def errorHeaders : List (String × String) :=
  [("Content-Type", "application/json"),
   ("Access-Control-Allow-Origin", "*")]

/-- The success result of lines 68-87 of the source. -/
def successResult (model_id : String)
    (generated_text prompt max_tokens temperature top_p : PyVal) : LambdaResult :=
  { statusCode := 200,
    headers := successHeaders,
    body := .obj [("success", .bool true),
                  ("generated_text", generated_text),
                  ("model_id", .str model_id),
                  ("input_prompt", prompt),
                  ("parameters", .obj [("max_tokens", max_tokens),
                                       ("temperature", temperature),
                                       ("top_p", top_p)])] }

/-- The `except ClientError` result of lines 89-106 of the source. -/
def clientErrorResult (code message : String) : LambdaResult :=
  { statusCode := 400,
    headers := errorHeaders,
    body := .obj [("success", .bool false),
                  ("error", .str ("AWS Error: " ++ code)),
                  ("message", .str message)] }

/-- The `except json.JSONDecodeError` result of lines 108-122 of the
source. -/
def jsonDecodeErrorResult (message : String) : LambdaResult :=
  { statusCode := 400,
    headers := errorHeaders,
    body := .obj [("success", .bool false),
                  ("error", .str "Invalid JSON format"),
                  ("message", .str message)] }

/-- The catch-all `except Exception` result of lines 124-138 of the
source. -/
def internalErrorResult (message : String) : LambdaResult :=
  { statusCode := 500,
    headers := errorHeaders,
    body := .obj [("success", .bool false),
                  ("error", .str "Internal server error"),
                  ("message", .str message)] }

/-- The body of the `try` block (lines 27-87 of the source): parse the event,
extract the parameters with their defaults, evaluate the logging slice, build
the provider request body, resolve the model identifier, invoke the model,
decode its response body with `json.loads`, extract `generation` (empty
string if absent), and build the success result.  Every exception becomes an
`Except.error`. -/
def tryBody (jsonLoads : String → Except String PyVal)
    (envModelId : Option String)
    (invoke_model : String → PyVal → String → String → InvokeResult)
    (event0 : PyVal) : Except PyErr LambdaResult :=
  match parseEvent jsonLoads event0 with
  | .error e => .error e
  | .ok event =>
    match event with
    | .obj kvs =>
      match pySlice100 (effPrompt kvs) with
      | .error e => .error e
      | .ok _ =>
        match invoke_model (resolveModelId envModelId)
            (requestBody (effPrompt kvs) (effMaxTokens kvs)
              (effTemperature kvs) (effTopP kvs))
            "application/json" "application/json" with
        | .clientError code message => .error (.clientError code message)
        | .raised message => .error (.other message)
        | .ok bodyString =>
          match jsonLoads bodyString with
          | .error msg => .error (.jsonDecodeError msg)
          | .ok response_body =>
            match response_body with
            | .obj rkvs =>
              .ok (successResult (resolveModelId envModelId)
                (dictGet rkvs "generation" (.str ""))
                (effPrompt kvs) (effMaxTokens kvs)
                (effTemperature kvs) (effTopP kvs))
            | v => .error (.other (attrErrMsg v))
    | v => .error (.other (attrErrMsg v))

/-- The handler `lambda_handler` of the source: run the `try` block and
dispatch a raised exception to the matching `except` clause, exactly as lines
89-138 of the source do. -/
def lambda_handler (jsonLoads : String → Except String PyVal)
    (envModelId : Option String)
    (invoke_model : String → PyVal → String → String → InvokeResult)
    (event : PyVal) : LambdaResult :=
  match tryBody jsonLoads envModelId invoke_model event with
  | .ok r => r
  | .error (.clientError code message) => clientErrorResult code message
  | .error (.jsonDecodeError message) => jsonDecodeErrorResult message
  | .error (.other message) => internalErrorResult message

/-! Concrete instantiations of the external dependencies, used to evaluate
the theorems below on closed inputs. -/

/-- A concrete decoder for closed evaluations: three fixed tags decode to
fixed values, everything else fails with a decode diagnostic. -/
def jsonLoadsStub (s : String) : Except String PyVal :=
  if s = "OBJ" then .ok (.obj [])
  else if s = "GEN" then .ok (.obj [("generation", .str "X")])
  else if s = "ARR" then .ok (.list [])
  else .error "Expecting value"

/-- A concrete provider whose response body carries a `generation` field. -/
def invokeGen : String → PyVal → String → String → InvokeResult :=
  fun _ _ _ _ => .ok "GEN"

/-- A concrete provider whose response body decodes to an empty object. -/
def invokeEmptyObj : String → PyVal → String → String → InvokeResult :=
  fun _ _ _ _ => .ok "OBJ"

/-- A concrete provider whose response body does not decode. -/
def invokeBad : String → PyVal → String → String → InvokeResult :=
  fun _ _ _ _ => .ok "BAD"

/-- A concrete provider failing with a structured `ClientError`. -/
def invokeThrottle : String → PyVal → String → String → InvokeResult :=
  fun _ _ _ _ => .clientError "ThrottlingException" "Rate exceeded"

/-- A concrete provider raising an unstructured exception. -/
def invokeRaised : String → PyVal → String → String → InvokeResult :=
  fun _ _ _ _ => .raised "boom"

/-- C6: an event that is a string on which JSON decoding fails makes the
handler return status 400 with error "Invalid JSON format" and the decode
diagnostic as the message. -/
theorem string_event_bad_json_gives_400
    (jsonLoads : String → Except String PyVal) (envModelId : Option String)
    (invoke_model : String → PyVal → String → String → InvokeResult)
    (s msg : String) (h : jsonLoads s = .error msg) :
    lambda_handler jsonLoads envModelId invoke_model (.str s) =
      { statusCode := 400,
        headers := errorHeaders,
        body := .obj [("success", .bool false),
                      ("error", .str "Invalid JSON format"),
                      ("message", .str msg)] } := by
  simp [lambda_handler, tryBody, parseEvent, h, jsonDecodeErrorResult]

/-- Witness for C6: the concrete decoder rejects the string "not json", and
the handler maps it to the 400 "Invalid JSON format" envelope. -/
theorem string_event_bad_json_gives_400_witness :
    jsonLoadsStub "not json" = .error "Expecting value" ∧
    lambda_handler jsonLoadsStub Option.none invokeGen (.str "not json") =
      { statusCode := 400,
        headers := errorHeaders,
        body := .obj [("success", .bool false),
                      ("error", .str "Invalid JSON format"),
                      ("message", .str "Expecting value")] } :=
  ⟨rfl, string_event_bad_json_gives_400 jsonLoadsStub Option.none invokeGen
    "not json" "Expecting value" rfl⟩

/-- C1: when the decoded provider response carries a `generation` field with
value x, the handler returns status 200 with a success envelope echoing x as
the generated text, the resolved model identifier, the effective prompt and
the effective parameters; the model identifier resolves to the externally
supplied value, or to "meta.llama3-8b-instruct-v1:0" when absent. -/
theorem success_generation_envelope
    (jsonLoads : String → Except String PyVal) (envModelId : Option String)
    (invoke_model : String → PyVal → String → String → InvokeResult)
    (kvs rkvs : List (String × PyVal)) (s : String) (x p' : PyVal)
    (hslice : pySlice100 (effPrompt kvs) = .ok p')
    (hinv : invoke_model (resolveModelId envModelId)
        (requestBody (effPrompt kvs) (effMaxTokens kvs)
          (effTemperature kvs) (effTopP kvs))
        "application/json" "application/json" = .ok s)
    (hresp : jsonLoads s = .ok (.obj rkvs))
    (hgen : List.lookup "generation" rkvs = some x) :
    lambda_handler jsonLoads envModelId invoke_model (.obj kvs) =
      { statusCode := 200,
        headers := successHeaders,
        body := .obj [("success", .bool true),
                      ("generated_text", x),
                      ("model_id", .str (resolveModelId envModelId)),
                      ("input_prompt", effPrompt kvs),
                      ("parameters", .obj [("max_tokens", effMaxTokens kvs),
                                           ("temperature", effTemperature kvs),
                                           ("top_p", effTopP kvs)])] } ∧
    (envModelId = Option.none →
      resolveModelId envModelId = "meta.llama3-8b-instruct-v1:0") ∧
    (∀ v, envModelId = some v → resolveModelId envModelId = v) := by
  refine ⟨?_, ?_, ?_⟩
  · simp [lambda_handler, tryBody, parseEvent, hslice, hinv, hresp,
      successResult, dictGet, hgen]
  · intro h; rw [h]; rfl
  · intro v h; rw [h]; rfl

/-- Witness for C1: a concrete provider whose decoded response is the object
with generation "X"; on an empty event the handler returns 200 and echoes
"X", the default model identifier, the default prompt and the default
parameters. -/
theorem success_generation_envelope_witness :
    List.lookup "generation" [("generation", PyVal.str "X")] =
      some (PyVal.str "X") ∧
    lambda_handler jsonLoadsStub Option.none invokeGen (.obj []) =
      { statusCode := 200,
        headers := successHeaders,
        body := .obj [("success", .bool true),
                      ("generated_text", .str "X"),
                      ("model_id", .str "meta.llama3-8b-instruct-v1:0"),
                      ("input_prompt", .str "Hello, how are you?"),
                      ("parameters", .obj [("max_tokens", .int 512),
                                           ("temperature", .float 0.7),
                                           ("top_p", .float 0.9)])] } :=
  ⟨rfl,
    (success_generation_envelope jsonLoadsStub Option.none invokeGen
      [] [("generation", PyVal.str "X")] "GEN" (.str "X")
      (.str ("Hello, how are you?".take 100)) rfl rfl rfl rfl).1⟩

/-- C2: an absent prompt, max_tokens, temperature or top_p field takes the
default "Hello, how are you?", 512, 0.7 or 0.9 respectively; absence is not
an error, and a successful invocation echoes the effective (defaulted)
prompt and parameters in the envelope. -/
theorem defaults_applied (kvs : List (String × PyVal)) :
    (List.lookup "prompt" kvs = Option.none →
      effPrompt kvs = .str "Hello, how are you?") ∧
    (List.lookup "max_tokens" kvs = Option.none →
      effMaxTokens kvs = .int 512) ∧
    (List.lookup "temperature" kvs = Option.none →
      effTemperature kvs = .float 0.7) ∧
    (List.lookup "top_p" kvs = Option.none →
      effTopP kvs = .float 0.9) ∧
    (∀ (jsonLoads : String → Except String PyVal) (envModelId : Option String)
      (invoke_model : String → PyVal → String → String → InvokeResult)
      (s : String) (rkvs : List (String × PyVal)) (p' : PyVal),
      pySlice100 (effPrompt kvs) = .ok p' →
      invoke_model (resolveModelId envModelId)
        (requestBody (effPrompt kvs) (effMaxTokens kvs)
          (effTemperature kvs) (effTopP kvs))
        "application/json" "application/json" = .ok s →
      jsonLoads s = .ok (.obj rkvs) →
      ∃ g, lambda_handler jsonLoads envModelId invoke_model (.obj kvs) =
        { statusCode := 200,
          headers := successHeaders,
          body := .obj [("success", .bool true),
                        ("generated_text", g),
                        ("model_id", .str (resolveModelId envModelId)),
                        ("input_prompt", effPrompt kvs),
                        ("parameters", .obj [("max_tokens", effMaxTokens kvs),
                                             ("temperature", effTemperature kvs),
                                             ("top_p", effTopP kvs)])] }) := by
  refine ⟨?_, ?_, ?_, ?_, ?_⟩
  · intro h; simp [effPrompt, dictGet, h]
  · intro h; simp [effMaxTokens, dictGet, h]
  · intro h; simp [effTemperature, dictGet, h]
  · intro h; simp [effTopP, dictGet, h]
  · intro jsonLoads envModelId invoke_model s rkvs p' hslice hinv hresp
    refine ⟨dictGet rkvs "generation" (.str ""), ?_⟩
    simp [lambda_handler, tryBody, parseEvent, hslice, hinv, hresp,
      successResult]

/-- Witness for C2: the empty event omits all four fields; every default is
substituted and a successful invocation echoes exactly the defaults. -/
theorem defaults_applied_witness :
    effPrompt [] = .str "Hello, how are you?" ∧
    effMaxTokens [] = .int 512 ∧
    effTemperature [] = .float 0.7 ∧
    effTopP [] = .float 0.9 ∧
    (∃ g, lambda_handler jsonLoadsStub Option.none invokeGen (.obj []) =
      { statusCode := 200,
        headers := successHeaders,
        body := .obj [("success", .bool true),
                      ("generated_text", g),
                      ("model_id", .str "meta.llama3-8b-instruct-v1:0"),
                      ("input_prompt", .str "Hello, how are you?"),
                      ("parameters", .obj [("max_tokens", .int 512),
                                           ("temperature", .float 0.7),
                                           ("top_p", .float 0.9)])] }) :=
  ⟨(defaults_applied []).1 rfl,
   (defaults_applied []).2.1 rfl,
   (defaults_applied []).2.2.1 rfl,
   (defaults_applied []).2.2.2.1 rfl,
   (defaults_applied []).2.2.2.2 jsonLoadsStub Option.none invokeGen
     "GEN" [("generation", PyVal.str "X")]
     (.str ("Hello, how are you?".take 100)) rfl rfl rfl⟩

/-- C4: when the decoded provider response is an object without a
`generation` field, the handler still returns a success envelope with status
200 whose generated text is the empty string. -/
theorem missing_generation_gives_empty_text
    (jsonLoads : String → Except String PyVal) (envModelId : Option String)
    (invoke_model : String → PyVal → String → String → InvokeResult)
    (kvs rkvs : List (String × PyVal)) (s : String) (p' : PyVal)
    (hslice : pySlice100 (effPrompt kvs) = .ok p')
    (hinv : invoke_model (resolveModelId envModelId)
        (requestBody (effPrompt kvs) (effMaxTokens kvs)
          (effTemperature kvs) (effTopP kvs))
        "application/json" "application/json" = .ok s)
    (hresp : jsonLoads s = .ok (.obj rkvs))
    (hgen : List.lookup "generation" rkvs = Option.none) :
    lambda_handler jsonLoads envModelId invoke_model (.obj kvs) =
      { statusCode := 200,
        headers := successHeaders,
        body := .obj [("success", .bool true),
                      ("generated_text", .str ""),
                      ("model_id", .str (resolveModelId envModelId)),
                      ("input_prompt", effPrompt kvs),
                      ("parameters", .obj [("max_tokens", effMaxTokens kvs),
                                           ("temperature", effTemperature kvs),
                                           ("top_p", effTopP kvs)])] } := by
  simp [lambda_handler, tryBody, parseEvent, hslice, hinv, hresp,
    successResult, dictGet, hgen]

/-- Witness for C4: a concrete provider whose decoded response is the empty
object; the handler returns 200 with the empty string as generated text. -/
theorem missing_generation_gives_empty_text_witness :
    List.lookup "generation" ([] : List (String × PyVal)) = Option.none ∧
    lambda_handler jsonLoadsStub Option.none invokeEmptyObj (.obj []) =
      { statusCode := 200,
        headers := successHeaders,
        body := .obj [("success", .bool true),
                      ("generated_text", .str ""),
                      ("model_id", .str "meta.llama3-8b-instruct-v1:0"),
                      ("input_prompt", .str "Hello, how are you?"),
                      ("parameters", .obj [("max_tokens", .int 512),
                                           ("temperature", .float 0.7),
                                           ("top_p", .float 0.9)])] } :=
  ⟨rfl,
    missing_generation_gives_empty_text jsonLoadsStub Option.none
      invokeEmptyObj [] [] "OBJ"
      (.str ("Hello, how are you?".take 100)) rfl rfl rfl rfl⟩

/-- C3: the handler's behaviour depends on the provider only through its
value at the resolved model identifier, the renamed four-field request body
and the two fixed JSON content-type declarations — i.e. the request sent to
the provider is exactly the object obtained by the fixed renaming
prompt→prompt, max_tokens→max_gen_len, temperature→temperature,
top_p→top_p of the effective fields, with the values passed through
unchanged and no range validation. -/
theorem provider_receives_renamed_body
    (jsonLoads : String → Except String PyVal) (envModelId : Option String)
    (invoke1 invoke2 : String → PyVal → String → String → InvokeResult)
    (event : PyVal) (kvs : List (String × PyVal)) (p' : PyVal)
    (hparse : parseEvent jsonLoads event = .ok (.obj kvs))
    (hslice : pySlice100 (effPrompt kvs) = .ok p')
    (hagree : invoke1 (resolveModelId envModelId)
        (requestBody (effPrompt kvs) (effMaxTokens kvs)
          (effTemperature kvs) (effTopP kvs))
        "application/json" "application/json"
      = invoke2 (resolveModelId envModelId)
        (requestBody (effPrompt kvs) (effMaxTokens kvs)
          (effTemperature kvs) (effTopP kvs))
        "application/json" "application/json") :
    lambda_handler jsonLoads envModelId invoke1 event =
      lambda_handler jsonLoads envModelId invoke2 event ∧
    requestBody (effPrompt kvs) (effMaxTokens kvs)
        (effTemperature kvs) (effTopP kvs) =
      .obj [("prompt", effPrompt kvs), ("max_gen_len", effMaxTokens kvs),
            ("temperature", effTemperature kvs), ("top_p", effTopP kvs)] := by
  constructor
  · have hbody : tryBody jsonLoads envModelId invoke1 event =
        tryBody jsonLoads envModelId invoke2 event := by
      simp only [tryBody, hparse, hslice]
      rw [hagree]
    simp only [lambda_handler, hbody]
  · rfl

/-- Witness for C3: two (equal) concrete providers agreeing at the renamed
request body give equal handler results, and the request body on the empty
event is the renamed object of the four defaults. -/
theorem provider_receives_renamed_body_witness :
    lambda_handler jsonLoadsStub Option.none invokeGen (.obj []) =
      lambda_handler jsonLoadsStub Option.none invokeGen (.obj []) ∧
    requestBody (effPrompt []) (effMaxTokens [])
        (effTemperature []) (effTopP []) =
      .obj [("prompt", .str "Hello, how are you?"), ("max_gen_len", .int 512),
            ("temperature", .float 0.7), ("top_p", .float 0.9)] :=
  provider_receives_renamed_body jsonLoadsStub Option.none invokeGen invokeGen
    (.obj []) [] (.str ("Hello, how are you?".take 100)) rfl rfl rfl

/-- C5: when the provider call raises a structured client error with code c
and message m, the handler returns status 400 with error "AWS Error: c" and
message m. -/
theorem client_error_gives_400
    (jsonLoads : String → Except String PyVal) (envModelId : Option String)
    (invoke_model : String → PyVal → String → String → InvokeResult)
    (event : PyVal) (kvs : List (String × PyVal)) (p' : PyVal) (c m : String)
    (hparse : parseEvent jsonLoads event = .ok (.obj kvs))
    (hslice : pySlice100 (effPrompt kvs) = .ok p')
    (hinv : invoke_model (resolveModelId envModelId)
        (requestBody (effPrompt kvs) (effMaxTokens kvs)
          (effTemperature kvs) (effTopP kvs))
        "application/json" "application/json" = .clientError c m) :
    lambda_handler jsonLoads envModelId invoke_model event =
      { statusCode := 400,
        headers := errorHeaders,
        body := .obj [("success", .bool false),
                      ("error", .str ("AWS Error: " ++ c)),
                      ("message", .str m)] } := by
  simp [lambda_handler, tryBody, hparse, hslice, hinv, clientErrorResult]

/-- Witness for C5: a concrete provider failing with code
"ThrottlingException" yields status 400 and error
"AWS Error: ThrottlingException". -/
theorem client_error_gives_400_witness :
    invokeThrottle "meta.llama3-8b-instruct-v1:0"
        (requestBody (effPrompt []) (effMaxTokens [])
          (effTemperature []) (effTopP []))
        "application/json" "application/json" =
      .clientError "ThrottlingException" "Rate exceeded" ∧
    lambda_handler jsonLoadsStub Option.none invokeThrottle (.obj []) =
      { statusCode := 400,
        headers := errorHeaders,
        body := .obj [("success", .bool false),
                      ("error", .str "AWS Error: ThrottlingException"),
                      ("message", .str "Rate exceeded")] } :=
  ⟨rfl,
    client_error_gives_400 jsonLoadsStub Option.none invokeThrottle
      (.obj []) [] (.str ("Hello, how are you?".take 100))
      "ThrottlingException" "Rate exceeded" rfl rfl rfl⟩

/-- C9: when the provider's response body fails to decode as JSON, the
`except json.JSONDecodeError` clause catches it exactly as it catches an
undecodable input, so the handler returns status 400 with error
"Invalid JSON format" rather than the 500 catch-all. -/
theorem provider_response_bad_json_gives_400
    (jsonLoads : String → Except String PyVal) (envModelId : Option String)
    (invoke_model : String → PyVal → String → String → InvokeResult)
    (event : PyVal) (kvs : List (String × PyVal)) (p' : PyVal) (s m : String)
    (hparse : parseEvent jsonLoads event = .ok (.obj kvs))
    (hslice : pySlice100 (effPrompt kvs) = .ok p')
    (hinv : invoke_model (resolveModelId envModelId)
        (requestBody (effPrompt kvs) (effMaxTokens kvs)
          (effTemperature kvs) (effTopP kvs))
        "application/json" "application/json" = .ok s)
    (hresp : jsonLoads s = .error m) :
    lambda_handler jsonLoads envModelId invoke_model event =
      { statusCode := 400,
        headers := errorHeaders,
        body := .obj [("success", .bool false),
                      ("error", .str "Invalid JSON format"),
                      ("message", .str m)] } := by
  simp [lambda_handler, tryBody, hparse, hslice, hinv, hresp,
    jsonDecodeErrorResult]

/-- Witness for C9: a concrete provider whose response body "BAD" does not
decode; the handler returns the 400 "Invalid JSON format" envelope. -/
theorem provider_response_bad_json_gives_400_witness :
    jsonLoadsStub "BAD" = .error "Expecting value" ∧
    lambda_handler jsonLoadsStub Option.none invokeBad (.obj []) =
      { statusCode := 400,
        headers := errorHeaders,
        body := .obj [("success", .bool false),
                      ("error", .str "Invalid JSON format"),
                      ("message", .str "Expecting value")] } :=
  ⟨rfl,
    provider_response_bad_json_gives_400 jsonLoadsStub Option.none invokeBad
      (.obj []) [] (.str ("Hello, how are you?".take 100))
      "BAD" "Expecting value" rfl rfl rfl rfl⟩

/-- C10: an event that is neither a string nor a dictionary (an integer, a
list, a boolean, `None`, a float) raises `AttributeError` at the first
`event.get(...)`, which only the catch-all clause handles: the handler
returns status 500 with error "Internal server error". -/
theorem non_mapping_event_gives_500
    (jsonLoads : String → Except String PyVal) (envModelId : Option String)
    (invoke_model : String → PyVal → String → String → InvokeResult)
    (event : PyVal)
    (hs : ∀ s, event ≠ PyVal.str s) (ho : ∀ kvs, event ≠ PyVal.obj kvs) :
    lambda_handler jsonLoads envModelId invoke_model event =
      { statusCode := 500,
        headers := errorHeaders,
        body := .obj [("success", .bool false),
                      ("error", .str "Internal server error"),
                      ("message", .str (attrErrMsg event))] } := by
  cases event with
  | str s => exact absurd rfl (hs s)
  | obj kvs => exact absurd rfl (ho kvs)
  | int n => rfl
  | float q => rfl
  | bool b => rfl
  | none => rfl
  | list l => rfl

/-- Witness for C10: the integer event 5 is neither a string nor a
dictionary, and the handler maps it to the 500 envelope. -/
theorem non_mapping_event_gives_500_witness :
    (∀ s, PyVal.int 5 ≠ PyVal.str s) ∧
    (∀ kvs, PyVal.int 5 ≠ PyVal.obj kvs) ∧
    lambda_handler jsonLoadsStub Option.none invokeGen (.int 5) =
      { statusCode := 500,
        headers := errorHeaders,
        body := .obj [("success", .bool false),
                      ("error", .str "Internal server error"),
                      ("message", .str "int object has no attribute get")] } :=
  ⟨fun _ h => PyVal.noConfusion h,
   fun _ h => PyVal.noConfusion h,
   non_mapping_event_gives_500 jsonLoadsStub Option.none invokeGen (.int 5)
     (fun _ h => PyVal.noConfusion h) (fun _ h => PyVal.noConfusion h)⟩

/-- Every successful run of the `try` block produces the success result
shape: status 200 with the success headers and a success envelope. -/
theorem tryBody_ok_is_success
    (jsonLoads : String → Except String PyVal) (envModelId : Option String)
    (invoke_model : String → PyVal → String → String → InvokeResult)
    (event : PyVal) (r : LambdaResult)
    (h : tryBody jsonLoads envModelId invoke_model event = .ok r) :
    ∃ mid g p mt t tp, r = successResult mid g p mt t tp := by
  unfold tryBody at h
  repeat' split at h
  all_goals first
    | exact Except.noConfusion h
    | exact ⟨_, _, _, _, _, _, (Except.ok.inj h).symm⟩

/-- The handler's result always has one of the four shapes built by the
source: the success result or one of the three error results. -/
theorem lambda_handler_result_shape
    (jsonLoads : String → Except String PyVal) (envModelId : Option String)
    (invoke_model : String → PyVal → String → String → InvokeResult)
    (event : PyVal) :
    (∃ mid g p mt t tp, lambda_handler jsonLoads envModelId invoke_model event =
      successResult mid g p mt t tp) ∨
    (∃ c m, lambda_handler jsonLoads envModelId invoke_model event =
      clientErrorResult c m) ∨
    (∃ m, lambda_handler jsonLoads envModelId invoke_model event =
      jsonDecodeErrorResult m) ∨
    (∃ m, lambda_handler jsonLoads envModelId invoke_model event =
      internalErrorResult m) := by
  unfold lambda_handler
  cases h : tryBody jsonLoads envModelId invoke_model event with
  | ok r =>
    obtain ⟨mid, g, p, mt, t, tp, hr⟩ :=
      tryBody_ok_is_success jsonLoads envModelId invoke_model event r h
    exact Or.inl ⟨mid, g, p, mt, t, tp, hr⟩
  | error e =>
    cases e with
    | clientError c m => exact Or.inr (Or.inl ⟨c, m, rfl⟩)
    | jsonDecodeError m => exact Or.inr (Or.inr (Or.inl ⟨m, rfl⟩))
    | other m => exact Or.inr (Or.inr (Or.inr ⟨m, rfl⟩))

/-- C7: a failure that is neither a structured client error nor a JSON
decode failure is caught by the catch-all clause, giving status 500 with
error "Internal server error" and the raw error text as message; and the
handler always returns a result (status 200, 400 or 500), never
propagating an exception. -/
theorem unexpected_failure_gives_500
    (jsonLoads : String → Except String PyVal) (envModelId : Option String)
    (invoke_model : String → PyVal → String → String → InvokeResult)
    (event : PyVal) :
    (∀ m, tryBody jsonLoads envModelId invoke_model event =
        .error (.other m) →
      lambda_handler jsonLoads envModelId invoke_model event =
        { statusCode := 500,
          headers := errorHeaders,
          body := .obj [("success", .bool false),
                        ("error", .str "Internal server error"),
                        ("message", .str m)] }) ∧
    ((lambda_handler jsonLoads envModelId invoke_model event).statusCode = 200 ∨
     (lambda_handler jsonLoads envModelId invoke_model event).statusCode = 400 ∨
     (lambda_handler jsonLoads envModelId invoke_model event).statusCode = 500) := by
  constructor
  · intro m hm
    simp [lambda_handler, hm, internalErrorResult]
  · rcases lambda_handler_result_shape jsonLoads envModelId invoke_model event
      with ⟨mid, g, p, mt, t, tp, h⟩ | ⟨c, m, h⟩ | ⟨m, h⟩ | ⟨m, h⟩ <;> rw [h]
    · exact Or.inl rfl
    · exact Or.inr (Or.inl rfl)
    · exact Or.inr (Or.inl rfl)
    · exact Or.inr (Or.inr rfl)

/-- Witness for C7: a concrete provider raising an unstructured exception
"boom"; the try block fails with the catch-all kind and the handler returns
the 500 envelope carrying "boom". -/
theorem unexpected_failure_gives_500_witness :
    tryBody jsonLoadsStub Option.none invokeRaised (.obj []) =
      .error (.other "boom") ∧
    lambda_handler jsonLoadsStub Option.none invokeRaised (.obj []) =
      { statusCode := 500,
        headers := errorHeaders,
        body := .obj [("success", .bool false),
                      ("error", .str "Internal server error"),
                      ("message", .str "boom")] } :=
  ⟨rfl,
    (unexpected_failure_gives_500 jsonLoadsStub Option.none invokeRaised
      (.obj [])).1 "boom" rfl⟩

/-- C8 as amended: every path attaches one of the two fixed header sets (the
four success headers, or the two headers shared by all three error
branches), and in all cases the headers contain the allow-all cross-origin
header Access-Control-Allow-Origin: *. -/
theorem cors_header_on_every_path
    (jsonLoads : String → Except String PyVal) (envModelId : Option String)
    (invoke_model : String → PyVal → String → String → InvokeResult)
    (event : PyVal) :
    ((lambda_handler jsonLoads envModelId invoke_model event).headers =
        successHeaders ∨
     (lambda_handler jsonLoads envModelId invoke_model event).headers =
        errorHeaders) ∧
    ("Access-Control-Allow-Origin", "*") ∈
      (lambda_handler jsonLoads envModelId invoke_model event).headers := by
  rcases lambda_handler_result_shape jsonLoads envModelId invoke_model event
    with ⟨mid, g, p, mt, t, tp, h⟩ | ⟨c, m, h⟩ | ⟨m, h⟩ | ⟨m, h⟩ <;> rw [h]
  · refine ⟨Or.inl rfl, ?_⟩
    show ("Access-Control-Allow-Origin", "*") ∈ successHeaders
    decide
  · refine ⟨Or.inr rfl, ?_⟩
    show ("Access-Control-Allow-Origin", "*") ∈ errorHeaders
    decide
  · refine ⟨Or.inr rfl, ?_⟩
    show ("Access-Control-Allow-Origin", "*") ∈ errorHeaders
    decide
  · refine ⟨Or.inr rfl, ?_⟩
    show ("Access-Control-Allow-Origin", "*") ∈ errorHeaders
    decide

/-- C8, counterexample to the claim as stated: the success path and the
failure paths do not attach the same fixed header set — the success result
carries four headers while a catch-all failure carries only two, so the two
header sets differ (though both contain the allow-all cross-origin
header). -/
theorem same_header_set_counterexample :
    (lambda_handler jsonLoadsStub Option.none invokeGen (.obj [])).headers =
      successHeaders ∧
    (lambda_handler jsonLoadsStub Option.none invokeRaised (.obj [])).headers =
      errorHeaders ∧
    successHeaders ≠ errorHeaders :=
  ⟨rfl, rfl, by decide⟩
